import Mathlib

/-!
# multipass LXD backend: health check, network listing, network inference

A shallow embedding of `src/platform/backends/lxd/lxd_virtual_machine_factory.cpp`.

* Qt JSON values are an inductive type; objects are association lists looked up by first match.
* `lxd_request` is not part of the embedded sources.  It is a parameter: a deterministic daemon
  `σ → Request → Reply × σ` over an arbitrary state type `σ`.  Every call made by the embedded code
  is recorded, with its reply, in a trace.
* C++ exceptions are the `Except` monad over the type `Exception`.
* `QString("%1/x/%2").arg(a).arg(b)` is string concatenation `a ++ "/x/" ++ b` (the reading of the path
  templates `{base}/projects/{name}`; place markers inside `a` are not modelled).
-/

namespace multipass

/-! ## JSON -/

/-- The value kinds of `QJsonValue` that occur in a parsed document.  Numbers are never inspected by
the embedded code, so their payload is an integer. -/
inductive QJsonValue where
  | null
  | bool (b : Bool)
  | double (d : Int)
  | string (s : String)
  | array (a : List QJsonValue)
  | object (o : List (String × QJsonValue))

/-- A `QJsonObject`: key/value pairs. -/
abbrev QJsonObject := List (String × QJsonValue)

/-- A `QJsonArray`. -/
abbrev QJsonArray := List QJsonValue

end multipass

open multipass in
mutual
/-- Decidable equality of JSON values (`QJsonValue::operator==`: same kind and same payload). -/
def decEqQJsonValue : (a b : QJsonValue) → Decidable (a = b)
  | .null, .null => isTrue rfl
  | .bool x, .bool y =>
    if h : x = y then isTrue (by rw [h]) else isFalse (by intro e; cases e; exact h rfl)
  | .double x, .double y =>
    if h : x = y then isTrue (by rw [h]) else isFalse (by intro e; cases e; exact h rfl)
  | .string x, .string y =>
    if h : x = y then isTrue (by rw [h]) else isFalse (by intro e; cases e; exact h rfl)
  | .array x, .array y =>
    match decEqQJsonArray x y with
    | isTrue h => isTrue (by rw [h])
    | isFalse h => isFalse (by intro e; cases e; exact h rfl)
  | .object x, .object y =>
    match decEqQJsonObject x y with
    | isTrue h => isTrue (by rw [h])
    | isFalse h => isFalse (by intro e; cases e; exact h rfl)
  | .null, .bool _ => isFalse (by intro e; cases e)
  | .null, .double _ => isFalse (by intro e; cases e)
  | .null, .string _ => isFalse (by intro e; cases e)
  | .null, .array _ => isFalse (by intro e; cases e)
  | .null, .object _ => isFalse (by intro e; cases e)
  | .bool _, .null => isFalse (by intro e; cases e)
  | .bool _, .double _ => isFalse (by intro e; cases e)
  | .bool _, .string _ => isFalse (by intro e; cases e)
  | .bool _, .array _ => isFalse (by intro e; cases e)
  | .bool _, .object _ => isFalse (by intro e; cases e)
  | .double _, .null => isFalse (by intro e; cases e)
  | .double _, .bool _ => isFalse (by intro e; cases e)
  | .double _, .string _ => isFalse (by intro e; cases e)
  | .double _, .array _ => isFalse (by intro e; cases e)
  | .double _, .object _ => isFalse (by intro e; cases e)
  | .string _, .null => isFalse (by intro e; cases e)
  | .string _, .bool _ => isFalse (by intro e; cases e)
  | .string _, .double _ => isFalse (by intro e; cases e)
  | .string _, .array _ => isFalse (by intro e; cases e)
  | .string _, .object _ => isFalse (by intro e; cases e)
  | .array _, .null => isFalse (by intro e; cases e)
  | .array _, .bool _ => isFalse (by intro e; cases e)
  | .array _, .double _ => isFalse (by intro e; cases e)
  | .array _, .string _ => isFalse (by intro e; cases e)
  | .array _, .object _ => isFalse (by intro e; cases e)
  | .object _, .null => isFalse (by intro e; cases e)
  | .object _, .bool _ => isFalse (by intro e; cases e)
  | .object _, .double _ => isFalse (by intro e; cases e)
  | .object _, .string _ => isFalse (by intro e; cases e)
  | .object _, .array _ => isFalse (by intro e; cases e)
/-- Decidable equality of JSON arrays. -/
def decEqQJsonArray : (a b : List QJsonValue) → Decidable (a = b)
  | [], [] => isTrue rfl
  | [], _ :: _ => isFalse (by intro e; cases e)
  | _ :: _, [] => isFalse (by intro e; cases e)
  | x :: xs, y :: ys =>
    match decEqQJsonValue x y, decEqQJsonArray xs ys with
    | isTrue h, isTrue h2 => isTrue (by rw [h, h2])
    | isFalse h, _ => isFalse (by intro e; cases e; exact h rfl)
    | _, isFalse h => isFalse (by intro e; cases e; exact h rfl)
/-- Decidable equality of JSON objects (as key/value lists). -/
def decEqQJsonObject : (a b : List (String × QJsonValue)) → Decidable (a = b)
  | [], [] => isTrue rfl
  | [], _ :: _ => isFalse (by intro e; cases e)
  | _ :: _, [] => isFalse (by intro e; cases e)
  | (k, x) :: xs, (l, y) :: ys =>
    if hk : k = l then
      match decEqQJsonValue x y, decEqQJsonObject xs ys with
      | isTrue h, isTrue h2 => isTrue (by rw [hk, h, h2])
      | isFalse h, _ => isFalse (by intro e; cases e; exact h rfl)
      | _, isFalse h => isFalse (by intro e; cases e; exact h rfl)
    else isFalse (by intro e; cases e; exact hk rfl)
end

namespace multipass

instance : DecidableEq QJsonValue := decEqQJsonValue

/-- The member `object[key]`: the value of the first pair with that key, `null` when there is none
(the non-const `QJsonObject::operator[]` used by the source yields a null value for a new key). -/
def QJsonObject.at (o : QJsonObject) (key : String) : QJsonValue :=
  match o.find? (fun kv => kv.1 == key) with
  | some kv => kv.2
  | none => .null

/-- The conversion `QJsonValue::toObject()`: the object, or the empty object for any other kind. -/
def QJsonValue.toObject : QJsonValue → QJsonObject
  | .object o => o
  | _ => []

/-- The conversion `QJsonValue::toArray()`: the array, or the empty array for any other kind. -/
def QJsonValue.toArray : QJsonValue → QJsonArray
  | .array a => a
  | _ => []

/-- The conversion `QJsonValue::toString()`: the string, or the empty string for any other kind. -/
def QJsonValue.toString : QJsonValue → String
  | .string s => s
  | _ => ""

/-! ## Requests, replies, exceptions -/

/-- The exceptions `lxd_request` can raise, as far as the embedded code tells them apart:
the two it catches by type, and `std::runtime_error` for everything else (permission denied,
malformed request, ...), identified by its message. -/
inductive Exception where
  | LocalSocketConnectionException (what : String)
  | LXDNotFoundException
  | runtime_error (what : String)
  deriving DecidableEq, Repr

/-- One call of `lxd_request(manager, method, url, json_data)`. -/
structure Request where
  method : String
  url : String
  json_data : Option QJsonObject
  deriving DecidableEq

/-- What a call of `lxd_request` produces: the reply object or an exception. -/
abbrev Reply := Except Exception QJsonObject

/-- Outcomes (a value or an exception) can be compared. -/
instance decEqExcept {ε α : Type} [DecidableEq ε] [DecidableEq α] : DecidableEq (Except ε α)
  | .ok a, .ok b => if h : a = b then isTrue (by rw [h]) else isFalse (by intro e; cases e; exact h rfl)
  | .error a, .error b =>
    if h : a = b then isTrue (by rw [h]) else isFalse (by intro e; cases e; exact h rfl)
  | .ok _, .error _ => isFalse (by intro e; cases e)
  | .error _, .ok _ => isFalse (by intro e; cases e)

/-- The daemon behind `lxd_request`: a deterministic transition function over its state. -/
abbrev Daemon (σ : Type) := σ → Request → Reply × σ

/-- The state threaded through a run: the daemon state, every request issued so far with its
reply (oldest first), and how often the host platform was asked for its network interfaces
(calls of `MP_PLATFORM.get_network_interfaces_info()`). -/
structure Session (σ : Type) where
  state : σ
  trace : List (Request × Reply)
  platform_calls : Nat

/-- Performs one request against the daemon and records it. -/
def lxd_request {σ : Type} (lxd : Daemon σ) (sess : Session σ) (method url : String)
    (json_data : Option QJsonObject) : Reply × Session σ :=
  let req : Request := ⟨method, url, json_data⟩
  let out := lxd sess.state req
  (out.1, ⟨out.2, sess.trace ++ [(req, out.1)], sess.platform_calls⟩)

/-- The requests of a trace, in the order they were issued. -/
def requests (trace : List (Request × Reply)) : List Request :=
  trace.map Prod.fst

/-- True when the reply is the not-found exception. -/
def is_not_found : Reply → Bool
  | .error .LXDNotFoundException => true
  | _ => false

/-- True when the trace holds a GET of `url` that the daemon answered with not-found. -/
def reported_not_found (trace : List (Request × Reply)) (url : String) : Bool :=
  trace.any (fun e => e.1.method == "GET" && e.1.url == url && is_not_found e.2)

/-! ## The health check -/

/-- The constant `multipass_bridge_name`. -/
def multipass_bridge_name : String := "mpbr0"

/-- The message appended to a connection failure. -/
def snap_hint : String :=
  "\n\nPlease ensure the LXD snap is installed and enabled. Also make sure\n" ++
  "the LXD interface is connected via `snap connect multipass:lxd lxd`."

/-- The body of the project creation request. -/
def project_json (lxd_project_name : String) : QJsonObject :=
  [("name", .string lxd_project_name), ("description", .string "Project for Multipass instances")]

/-- The `devices` object of the default profile. -/
def devices_json : QJsonObject :=
  [("eth0", .object [("name", .string "eth0"), ("nictype", .string "bridged"),
                     ("parent", .string "mpbr0"), ("type", .string "nic")])]

/-- The body of the default profile update. -/
def profile_json : QJsonObject :=
  [("description", .string "Default profile for Multipass project"), ("devices", .object devices_json)]

/-- The body of the bridge network creation request. -/
def network_json : QJsonObject :=
  [("name", .string multipass_bridge_name), ("description", .string "Network bridge for Multipass")]

/-- The method `LXDVirtualMachineFactory::hypervisor_health_check`.  `base_url` is
`base_url.toString()`, `lxd_project_name` the constant of that name (declared outside the embedded
sources).  Returns the outcome (normal return or the exception thrown) and the session after it. -/
def hypervisor_health_check {σ : Type} (lxd : Daemon σ) (base_url lxd_project_name : String)
    (sess : Session σ) : Except Exception Unit × Session σ :=
  match lxd_request lxd sess "GET" base_url none with
  | (.error (.LocalSocketConnectionException what), sess) =>
    (.error (.runtime_error (what ++ snap_hint)), sess)
  | (.error e, sess) => (.error e, sess)
  | (.ok reply, sess) =>
    if ((reply.at "metadata").toObject.at "auth") ≠ .string "trusted" then
      (.error (.runtime_error "Failed to authenticate to LXD."), sess)
    else
      let project : Except Exception Unit × Session σ :=
        match lxd_request lxd sess "GET" (base_url ++ "/projects/" ++ lxd_project_name) none with
        | (.error .LXDNotFoundException, sess) =>
          match lxd_request lxd sess "POST" (base_url ++ "/projects")
              (some (project_json lxd_project_name)) with
          | (.error e, sess) => (.error e, sess)
          | (.ok _, sess) =>
            match lxd_request lxd sess "PUT" (base_url ++ "/profiles/default") (some profile_json) with
            | (.error e, sess) => (.error e, sess)
            | (.ok _, sess) => (.ok (), sess)
        | (.error e, sess) => (.error e, sess)
        | (.ok _, sess) => (.ok (), sess)
      match project with
      | (.error e, sess) => (.error e, sess)
      | (.ok _, sess) =>
        match lxd_request lxd sess "GET" (base_url ++ "/networks/" ++ multipass_bridge_name) none with
        | (.error .LXDNotFoundException, sess) =>
          match lxd_request lxd sess "POST" (base_url ++ "/networks") (some network_json) with
          | (.error e, sess) => (.error e, sess)
          | (.ok _, sess) => (.ok (), sess)
        | (.error e, sess) => (.error e, sess)
        | (.ok _, sess) => (.ok (), sess)

/-- A fresh session on a daemon state: nothing issued yet. -/
def Session.start {σ : Type} (s : σ) : Session σ := ⟨s, [], 0⟩

end multipass

namespace multipass

/-- The method `LXDVirtualMachineFactory::get_backend_version_string`. -/
def get_backend_version_string {σ : Type} (lxd : Daemon σ) (base_url : String)
    (sess : Session σ) : Except Exception String × Session σ :=
  match lxd_request lxd sess "GET" base_url none with
  | (.error e, sess) => (.error e, sess)
  | (.ok reply, sess) =>
    (.ok ("lxd-" ++
      (((reply.at "metadata").toObject.at "environment").toObject.at "server_version").toString), sess)

/-! ## Network listing -/

/-- The struct `NetworkInterfaceInfo` (discovered network). -/
structure NetworkInterfaceInfo where
  id : String
  type : String
  description : String
  links : List String
  deriving DecidableEq, Repr

/-- The struct `NetworkInterface` (requested interface). -/
structure NetworkInterface where
  id : String
  mac_address : String
  auto_mode : Bool
  deriving DecidableEq, Repr

/-- The map returned by `MP_PLATFORM.get_network_interfaces_info()`: a `std::map` from id to info,
as its lookup function. -/
abbrev PlatformMap := String → Option NetworkInterfaceInfo

/-- The operation `std::map::erase` of one key. -/
def PlatformMap.erase (m : PlatformMap) (key : String) : PlatformMap :=
  fun k => if k = key then none else m k

/-- The array `supported_types` of `networks()`. -/
def supported_types : List String := ["bridge", "ethernet"]

/-- The `for` loop of `networks()` over the backend entries, threading the working copy
`platform_networks` and the result vector `ret`. -/
def networks_loop (platform_networks : PlatformMap) (ret : List NetworkInterfaceInfo) :
    List QJsonValue → List NetworkInterfaceInfo
  | [] => ret
  | net_value :: rest =>
    let network := net_value.toObject
    let qid := (network.at "name").toString
    if qid ≠ "" then
      match platform_networks qid with
      | some platform_it =>
        if platform_it.type ∈ supported_types then
          let lxd_description := (network.at "description").toString
          let description :=
            if lxd_description = "" then platform_it.description else lxd_description
          networks_loop (platform_networks.erase qid)
            (ret ++ [⟨qid, platform_it.type, description, []⟩]) rest
        else networks_loop platform_networks ret rest
      | none => networks_loop platform_networks ret rest
    else networks_loop platform_networks ret rest

/-- The method `LXDVirtualMachineFactory::networks`.  `platform` is what
`MP_PLATFORM.get_network_interfaces_info()` returns when it is called. -/
def networks {σ : Type} (lxd : Daemon σ) (base_url : String) (platform : PlatformMap)
    (sess : Session σ) : Except Exception (List NetworkInterfaceInfo) × Session σ :=
  match lxd_request lxd sess "GET" (base_url ++ "/networks?recursion=1") none with
  | (.error e, sess) => (.error e, sess)
  | (.ok reply, sess) =>
    let networks := (reply.at "metadata").toArray
    if networks ≠ [] then
      let sess := { sess with platform_calls := sess.platform_calls + 1 }
      (.ok (networks_loop platform [] networks), sess)
    else (.ok [], sess)

/-! ## Network inference -/

/-- The helper `setup_bridge` of the anonymous namespace. -/
def setup_bridge (interface : String) : String := interface

/-- The body of the `for` loop of `prepare_networking`, for one requested interface. -/
def prepare_networking_step (host_nets : List NetworkInterfaceInfo) (net : NetworkInterface) :
    NetworkInterface :=
  match host_nets.find? (fun info => info.id == net.id) with
  | some it =>
    if it.type = "ethernet" then
      match host_nets.find? (fun info => info.type == "bridge" && info.links.contains net.id) with
      | some it => { net with id := it.id }
      | none => { net with id := setup_bridge net.id }
    else net
  | none => net

/-- The `for` loop of `prepare_networking` over the requested interfaces, each rewritten in
place. -/
def prepare_networking_loop (host_nets : List NetworkInterfaceInfo) :
    List NetworkInterface → List NetworkInterface
  | [] => []
  | net :: rest => prepare_networking_step host_nets net :: prepare_networking_loop host_nets rest

/-- The method `LXDVirtualMachineFactory::prepare_networking`: the requested interfaces after the
call, or the exception of `networks()`. -/
def prepare_networking {σ : Type} (lxd : Daemon σ) (base_url : String) (platform : PlatformMap)
    (sess : Session σ) (extra_interfaces : List NetworkInterface) :
    Except Exception (List NetworkInterface) × Session σ :=
  match networks lxd base_url platform sess with
  | (.error e, sess) => (.error e, sess)
  | (.ok host_nets, sess) => (.ok (prepare_networking_loop host_nets extra_interfaces), sess)

/-! ## The listing as the specification words it -/

/-- The `name` member of a backend entry. -/
def entry_name (net_value : QJsonValue) : String :=
  (net_value.toObject.at "name").toString

/-- A backend entry is eligible when its name is non-empty, is a key of the platform map, and the
platform type is one of the supported types. -/
def eligible (platform : PlatformMap) (net_value : QJsonValue) : Bool :=
  entry_name net_value != "" &&
    match platform (entry_name net_value) with
    | some info => info.type == "bridge" || info.type == "ethernet"
    | none => false

/-- The result entry for an eligible backend entry: the backend name as id, the platform type, the
backend description unless it is empty (then the platform description), and no links. -/
def listed_entry (platform : PlatformMap) (net_value : QJsonValue) : Option NetworkInterfaceInfo :=
  (platform (entry_name net_value)).map fun info =>
    let lxd_description := (net_value.toObject.at "description").toString
    { id := entry_name net_value, type := info.type,
      description := if lxd_description = "" then info.description else lxd_description,
      links := [] }

/-- True when an earlier backend entry already matched the platform network of that name. -/
def matched_earlier (platform : PlatformMap) (earlier : List QJsonValue) (name : String) : Bool :=
  earlier.any fun e => eligible platform e && entry_name e == name

/-- The listing as specified: in backend order, the eligible entries not matched by an earlier
entry.  `earlier` holds the backend entries already passed. -/
def networks_spec (platform : PlatformMap) (earlier : List QJsonValue) :
    List QJsonValue → List NetworkInterfaceInfo
  | [] => []
  | e :: rest =>
    (if eligible platform e && !matched_earlier platform earlier (entry_name e) then
      (listed_entry platform e).toList else []) ++
    networks_spec platform (earlier ++ [e]) rest

/-! ## A sample daemon for concrete instances -/

/-- The state of the sample daemon: whether it trusts the client, whether the project and the
bridge network exist, and whether project queries are refused. -/
structure SampleState where
  trusted : Bool
  project : Bool
  network : Bool
  refused : Bool
  deriving DecidableEq, Repr

/-- The root reply of the sample daemon. -/
def sample_root (trusted : Bool) : QJsonObject :=
  [("metadata", .object [("auth", .string (if trusted then "trusted" else "untrusted")),
                         ("environment", .object [("server_version", .string "4.0")])])]

/-- The reply of the sample daemon to the network listing request: the managed bridge (unknown to
the sample platform), the adapter `eth0`, the bridge `br0`, and `eth0` a second time. -/
def sample_networks_reply : QJsonObject :=
  [("metadata", .array [
    .object [("name", .string "mpbr0"), ("description", .string "Network bridge for Multipass")],
    .object [("name", .string "eth0"), ("description", .string "")],
    .object [("name", .string "br0"), ("description", .string "")],
    .object [("name", .string "eth0"), ("description", .string "again")]])]

/-- A small daemon at base URL `lxd` with project `multipass`: it answers existence checks from its
state, creates what it is asked to create, and refuses project queries when told to. -/
def sample_daemon : Daemon SampleState := fun s req =>
  if req.method = "GET" ∧ req.url = "lxd" then (.ok (sample_root s.trusted), s)
  else if req.method = "GET" ∧ req.url = "lxd/projects/multipass" then
    if s.refused then (.error (.runtime_error "not authorized"), s)
    else if s.project then (.ok [], s) else (.error .LXDNotFoundException, s)
  else if req.method = "POST" ∧ req.url = "lxd/projects" then (.ok [], { s with project := true })
  else if req.method = "PUT" ∧ req.url = "lxd/profiles/default" then (.ok [], s)
  else if req.method = "GET" ∧ req.url = "lxd/networks/mpbr0" then
    if s.network then (.ok [], s) else (.error .LXDNotFoundException, s)
  else if req.method = "POST" ∧ req.url = "lxd/networks" then (.ok [], { s with network := true })
  else if req.method = "GET" ∧ req.url = "lxd/networks?recursion=1" then
    (.ok sample_networks_reply, s)
  else (.error (.runtime_error "bad request"), s)

/-- A second sample daemon at base URL `lxd`, trusting every client, whose state is the list of
the resource URLs that exist: a GET succeeds on an existing resource and reports not-found
otherwise, a POST creates the named resource under the collection, any other request succeeds. -/
def store_daemon : Daemon (List String) := fun st req =>
  if req.method = "GET" then
    if req.url = "lxd" then (.ok (sample_root true), st)
    else if req.url ∈ st then (.ok [], st) else (.error .LXDNotFoundException, st)
  else if req.method = "POST" then
    (.ok [], (req.url ++ "/" ++ ((req.json_data.getD []).at "name").toString) :: st)
  else (.ok [], st)

/-- A sample host platform: an adapter `eth0`, a bridge `br0` over it, and a wireless card. -/
def sample_platform : PlatformMap := fun k =>
  if k = "eth0" then some ⟨"eth0", "ethernet", "Ethernet device", []⟩
  else if k = "br0" then some ⟨"br0", "bridge", "Network bridge with eth0", ["eth0"]⟩
  else if k = "wlan0" then some ⟨"wlan0", "wifi", "Wi-Fi device", []⟩
  else none

/-- The host networks of the specification example: adapter `eth0` and bridge `br0` over it. -/
def sample_host_nets : List NetworkInterfaceInfo :=
  [⟨"eth0", "ethernet", "Ethernet device", []⟩, ⟨"br0", "bridge", "Network bridge with eth0", ["eth0"]⟩]

end multipass

namespace multipass

/-- The sample daemon state reached by a first health check on a trusted, empty backend. -/
def sample_after_first_run : SampleState :=
  (hypervisor_health_check sample_daemon "lxd" "multipass"
    (Session.start ⟨true, false, false, false⟩)).2.state

/-- The request sequence of the health check on a trusted backend as the specification gives it,
from whether the project and the bridge network were reported absent. -/
def expected_requests (base_url lxd_project_name : String) (project_absent network_absent : Bool) :
    List Request :=
  [⟨"GET", base_url, none⟩, ⟨"GET", base_url ++ "/projects/" ++ lxd_project_name, none⟩] ++
  (if project_absent then
    [⟨"POST", base_url ++ "/projects",
        some [("name", .string lxd_project_name),
              ("description", .string "Project for Multipass instances")]⟩,
     ⟨"PUT", base_url ++ "/profiles/default",
        some [("description", .string "Default profile for Multipass project"),
              ("devices", .object [("eth0", .object [("name", .string "eth0"),
                ("nictype", .string "bridged"), ("parent", .string "mpbr0"),
                ("type", .string "nic")])])]⟩]
   else []) ++
  [⟨"GET", base_url ++ "/networks/mpbr0", none⟩] ++
  (if network_absent then
    [⟨"POST", base_url ++ "/networks",
        some [("name", .string "mpbr0"), ("description", .string "Network bridge for Multipass")]⟩]
   else [])

end multipass

namespace multipass

/-- A daemon like the store daemon on which creating the bridge network is refused. -/
def refusing_network_daemon : Daemon (List String) := fun st req =>
  if req.method = "POST" ∧ req.url = "lxd/networks" then
    (.error (.runtime_error "not authorized"), st)
  else store_daemon st req

/-! ## Settings -/

/-- The exceptions of `settings_exceptions.h` (declared outside the embedded sources), by name
and key. -/
inductive SettingsException where
  | UnrecognizedSettingException (key : String)
  | InvalidSettingException (key val why : String)
  | UnsupportedSettingValueType (key : String)
  deriving DecidableEq, Repr

/-- What `QVariant` knows about a target type `T` when it holds a `QString`: whether the type can
be converted to at all (`canConvert<T>()`, a property of the two types only), the conversion of a
value (`none` when the value is malformed for `T`), and the default-constructed `T`. -/
structure TargetType (T : Type) where
  canConvert : Bool
  convert : String → Option T
  default_constructed : T

/-- The conversion `QVariant::value<T>()` of a variant holding the string `s`: the converted value,
or a default-constructed `T` when the value cannot be converted. -/
def TargetType.value {T : Type} (t : TargetType T) (s : String) : T :=
  if t.canConvert then
    match t.convert s with
    | some v => v
    | none => t.default_constructed
  else t.default_constructed

/-- The method template `Settings::get_as<T>`.  `get` is the virtual `Settings::get` (defined
outside the embedded sources), which returns the stored string or throws. -/
def get_as {T : Type} (get : String → Except SettingsException String) (t : TargetType T)
    (key : String) : Except SettingsException T :=
  match get key with
  | .error e => .error e
  | .ok var => if t.canConvert then .ok (t.value var) else .error (.UnsupportedSettingValueType key)

/-- The value of a string of decimal digits. -/
def digits_value (ds : List Char) : Int :=
  ds.foldl (fun n c => 10 * n + ((c.toNat : Int) - 48)) 0

/-- A sample target type: `int`, converted from plain decimal numerals with an optional minus
sign. -/
def int_target : TargetType Int where
  canConvert := true
  convert := fun s =>
    match s.data with
    | '-' :: ds => if ds ≠ [] ∧ ds.all Char.isDigit then some (- digits_value ds) else none
    | ds => if ds ≠ [] ∧ ds.all Char.isDigit then some (digits_value ds) else none
  default_constructed := 0

/-- A sample target type that strings cannot be converted to at all. -/
def unconvertible_target : TargetType Unit where
  canConvert := false
  convert := fun _ => none
  default_constructed := ()

/-- A sample `Settings::get`: two known keys, every other key unknown. -/
def sample_get : String → Except SettingsException String := fun key =>
  if key = "local.cpus" then .ok "4"
  else if key = "local.driver" then .ok "not-a-number"
  else .error (.UnrecognizedSettingException key)

end multipass

namespace multipass

/-- A daemon whose socket cannot be connected to. -/
def unreachable_daemon : Daemon Unit := fun st _ =>
  (.error (.LocalSocketConnectionException "Cannot connect to lxd socket"), st)

end multipass

namespace multipass

/-! ## Helper lemmas -/

/-- Appending to a common prefix is injective. -/
theorem string_append_left_cancel (a b c : String) (h : a ++ b = a ++ c) : b = c := by
  have h2 := congrArg String.data h
  simp only [String.data_append] at h2
  exact String.ext (List.append_cancel_left h2)

/-- The project URL and the bridge network URL differ for every base URL and project name. -/
theorem project_url_ne_network_url (base_url lxd_project_name : String) :
    base_url ++ "/projects/" ++ lxd_project_name ≠ base_url ++ "/networks/" ++ multipass_bridge_name := by
  intro h
  rw [String.append_assoc, String.append_assoc] at h
  have h2 := congrArg String.data (string_append_left_cancel _ _ _ h)
  simp only [String.data_append] at h2
  revert h2
  simp [multipass_bridge_name]

/-! ## The health check -/

/-- C1: on a backend whose root reply is trusted and whose project check and bridge network check
both succeed, the health check returns normally and none of its requests is a POST or a PUT. -/
theorem health_check_provisioned_creates_nothing {σ : Type} (lxd : Daemon σ)
    (base_url lxd_project_name : String) (s s1 s2 s3 : σ) (reply r2 r3 : QJsonObject)
    (h0 : lxd s ⟨"GET", base_url, none⟩ = (.ok reply, s1))
    (hauth : (reply.at "metadata").toObject.at "auth" = .string "trusted")
    (h1 : lxd s1 ⟨"GET", base_url ++ "/projects/" ++ lxd_project_name, none⟩ = (.ok r2, s2))
    (h2 : lxd s2 ⟨"GET", base_url ++ "/networks/" ++ multipass_bridge_name, none⟩ = (.ok r3, s3)) :
    (hypervisor_health_check lxd base_url lxd_project_name (Session.start s)).1 = .ok () ∧
    (requests (hypervisor_health_check lxd base_url lxd_project_name
      (Session.start s)).2.trace).filter (fun q => q.method = "POST" ∨ q.method = "PUT") = [] := by
  simp [hypervisor_health_check, lxd_request, Session.start, requests, h0, hauth, h1, h2]

end multipass

namespace multipass

/-- An instance of C1: the second health check on the sample daemon, after a first one created the
project and the bridge network, returns normally without any POST or PUT. -/
theorem health_check_provisioned_creates_nothing_witness :
    (hypervisor_health_check sample_daemon "lxd" "multipass"
      (Session.start sample_after_first_run)).1 = .ok () ∧
    (requests (hypervisor_health_check sample_daemon "lxd" "multipass"
      (Session.start sample_after_first_run)).2.trace).filter
        (fun q => q.method = "POST" ∨ q.method = "PUT") = [] :=
  health_check_provisioned_creates_nothing sample_daemon "lxd" "multipass"
    sample_after_first_run sample_after_first_run sample_after_first_run sample_after_first_run
    (sample_root true) [] [] (by decide) (by decide) (by decide) (by decide)

/-- C2: when the root reply is trusted and the project check fails with an exception other than
not-found, the health check fails with that exception and the project check is its last request:
the requests are the root GET and the project GET, nothing else. -/
theorem health_check_project_error_propagates {σ : Type} (lxd : Daemon σ)
    (base_url lxd_project_name : String) (s s1 s2 : σ) (reply : QJsonObject) (e : Exception)
    (h0 : lxd s ⟨"GET", base_url, none⟩ = (.ok reply, s1))
    (hauth : (reply.at "metadata").toObject.at "auth" = .string "trusted")
    (h1 : lxd s1 ⟨"GET", base_url ++ "/projects/" ++ lxd_project_name, none⟩ = (.error e, s2))
    (hne : e ≠ .LXDNotFoundException) :
    (hypervisor_health_check lxd base_url lxd_project_name (Session.start s)).1 = .error e ∧
    requests (hypervisor_health_check lxd base_url lxd_project_name (Session.start s)).2.trace =
      [⟨"GET", base_url, none⟩, ⟨"GET", base_url ++ "/projects/" ++ lxd_project_name, none⟩] := by
  cases e with
  | LXDNotFoundException => exact absurd rfl hne
  | LocalSocketConnectionException what =>
    simp [hypervisor_health_check, lxd_request, Session.start, requests, h0, hauth, h1]
  | runtime_error what =>
    simp [hypervisor_health_check, lxd_request, Session.start, requests, h0, hauth, h1]

/-- An instance of C2: the sample daemon refusing project queries. -/
theorem health_check_project_error_propagates_witness :
    (hypervisor_health_check sample_daemon "lxd" "multipass"
      (Session.start ⟨true, false, false, true⟩)).1 = .error (.runtime_error "not authorized") ∧
    requests (hypervisor_health_check sample_daemon "lxd" "multipass"
      (Session.start ⟨true, false, false, true⟩)).2.trace =
      [⟨"GET", "lxd", none⟩, ⟨"GET", "lxd" ++ "/projects/" ++ "multipass", none⟩] :=
  health_check_project_error_propagates sample_daemon "lxd" "multipass"
    ⟨true, false, false, true⟩ ⟨true, false, false, true⟩ ⟨true, false, false, true⟩
    (sample_root true) (.runtime_error "not authorized")
    (by decide) (by decide) (by decide) (by decide)

/-- C3, as stated, fails: on the fully provisioned sample daemon the health check returns normally
after three requests, not four. -/
theorem health_check_four_queries_counterexample :
    (hypervisor_health_check sample_daemon "lxd" "multipass"
      (Session.start ⟨true, true, true, false⟩)).1 = .ok () ∧
    requests (hypervisor_health_check sample_daemon "lxd" "multipass"
      (Session.start ⟨true, true, true, false⟩)).2.trace =
      [⟨"GET", "lxd", none⟩, ⟨"GET", "lxd/projects/multipass", none⟩,
       ⟨"GET", "lxd/networks/mpbr0", none⟩] ∧
    ¬ (requests (hypervisor_health_check sample_daemon "lxd" "multipass"
      (Session.start ⟨true, true, true, false⟩)).2.trace).length = 4 := by
  decide

/-- C3, amended: on a fully provisioned backend (root reply trusted, project present, bridge
network present) the health check issues exactly three requests, all of them GET: the root, the
project and the bridge network. -/
theorem health_check_provisioned_three_queries {σ : Type} (lxd : Daemon σ)
    (base_url lxd_project_name : String) (s s1 s2 s3 : σ) (reply r2 r3 : QJsonObject)
    (h0 : lxd s ⟨"GET", base_url, none⟩ = (.ok reply, s1))
    (hauth : (reply.at "metadata").toObject.at "auth" = .string "trusted")
    (h1 : lxd s1 ⟨"GET", base_url ++ "/projects/" ++ lxd_project_name, none⟩ = (.ok r2, s2))
    (h2 : lxd s2 ⟨"GET", base_url ++ "/networks/" ++ multipass_bridge_name, none⟩ = (.ok r3, s3)) :
    requests (hypervisor_health_check lxd base_url lxd_project_name (Session.start s)).2.trace =
      [⟨"GET", base_url, none⟩, ⟨"GET", base_url ++ "/projects/" ++ lxd_project_name, none⟩,
       ⟨"GET", base_url ++ "/networks/" ++ multipass_bridge_name, none⟩] ∧
    (requests (hypervisor_health_check lxd base_url lxd_project_name
      (Session.start s)).2.trace).length = 3 := by
  simp [hypervisor_health_check, lxd_request, Session.start, requests, h0, hauth, h1, h2]

/-- An instance of the amended C3 on the fully provisioned sample daemon. -/
theorem health_check_provisioned_three_queries_witness :
    requests (hypervisor_health_check sample_daemon "lxd" "multipass"
      (Session.start ⟨true, true, true, false⟩)).2.trace =
      [⟨"GET", "lxd", none⟩, ⟨"GET", "lxd" ++ "/projects/" ++ "multipass", none⟩,
       ⟨"GET", "lxd" ++ "/networks/" ++ multipass_bridge_name, none⟩] ∧
    (requests (hypervisor_health_check sample_daemon "lxd" "multipass"
      (Session.start ⟨true, true, true, false⟩)).2.trace).length = 3 :=
  health_check_provisioned_three_queries sample_daemon "lxd" "multipass"
    ⟨true, true, true, false⟩ ⟨true, true, true, false⟩ ⟨true, true, true, false⟩
    ⟨true, true, true, false⟩ (sample_root true) [] [] (by decide) (by decide) (by decide)
    (by decide)

/-- C4: when the root GET succeeds and `metadata.auth` of the reply is not the string `trusted`
(missing and non-string values included), the health check fails with the authentication error and
the root GET is the only request. -/
theorem health_check_untrusted_fails {σ : Type} (lxd : Daemon σ)
    (base_url lxd_project_name : String) (s s1 : σ) (reply : QJsonObject)
    (h0 : lxd s ⟨"GET", base_url, none⟩ = (.ok reply, s1))
    (hauth : (reply.at "metadata").toObject.at "auth" ≠ .string "trusted") :
    (hypervisor_health_check lxd base_url lxd_project_name (Session.start s)).1 =
      .error (.runtime_error "Failed to authenticate to LXD.") ∧
    requests (hypervisor_health_check lxd base_url lxd_project_name (Session.start s)).2.trace =
      [⟨"GET", base_url, none⟩] := by
  simp [hypervisor_health_check, lxd_request, Session.start, requests, h0, hauth]

/-- An instance of C4: the sample daemon not trusting the client. -/
theorem health_check_untrusted_fails_witness :
    (hypervisor_health_check sample_daemon "lxd" "multipass"
      (Session.start ⟨false, false, false, false⟩)).1 =
      .error (.runtime_error "Failed to authenticate to LXD.") ∧
    requests (hypervisor_health_check sample_daemon "lxd" "multipass"
      (Session.start ⟨false, false, false, false⟩)).2.trace = [⟨"GET", "lxd", none⟩] :=
  health_check_untrusted_fails sample_daemon "lxd" "multipass"
    ⟨false, false, false, false⟩ ⟨false, false, false, false⟩ (sample_root false)
    (by decide) (by decide)

end multipass

namespace multipass

/-- C5: on a trusted backend where every POST and PUT succeeds and the two existence checks either
succeed or report not-found, the health check returns normally and its requests are the sequence
fixed by the two existence answers: root GET, project GET, then project POST and profile PUT only
after a not-found project, then network GET, then network POST only after a not-found network.
The profile PUT is issued exactly when the project was reported absent, that is exactly when the
project POST is issued. -/
theorem health_check_request_sequence {σ : Type} (lxd : Daemon σ)
    (base_url lxd_project_name : String) (s s1 : σ) (reply : QJsonObject)
    (h0 : lxd s ⟨"GET", base_url, none⟩ = (.ok reply, s1))
    (hauth : (reply.at "metadata").toObject.at "auth" = .string "trusted")
    (hwrite : ∀ st req, req.method ≠ "GET" → ∃ r, (lxd st req).1 = .ok r)
    (hproj : ∀ st, (lxd st ⟨"GET", base_url ++ "/projects/" ++ lxd_project_name, none⟩).1 =
        .error .LXDNotFoundException ∨
      ∃ r, (lxd st ⟨"GET", base_url ++ "/projects/" ++ lxd_project_name, none⟩).1 = .ok r)
    (hnet : ∀ st, (lxd st ⟨"GET", base_url ++ "/networks/" ++ multipass_bridge_name, none⟩).1 =
        .error .LXDNotFoundException ∨
      ∃ r, (lxd st ⟨"GET", base_url ++ "/networks/" ++ multipass_bridge_name, none⟩).1 = .ok r) :
    (hypervisor_health_check lxd base_url lxd_project_name (Session.start s)).1 = .ok () ∧
    requests (hypervisor_health_check lxd base_url lxd_project_name (Session.start s)).2.trace =
      expected_requests base_url lxd_project_name
        (reported_not_found
          (hypervisor_health_check lxd base_url lxd_project_name (Session.start s)).2.trace
          (base_url ++ "/projects/" ++ lxd_project_name))
        (reported_not_found
          (hypervisor_health_check lxd base_url lxd_project_name (Session.start s)).2.trace
          (base_url ++ "/networks/" ++ multipass_bridge_name)) ∧
    ((⟨"PUT", base_url ++ "/profiles/default", some profile_json⟩ : Request) ∈
        requests (hypervisor_health_check lxd base_url lxd_project_name (Session.start s)).2.trace ↔
      reported_not_found
        (hypervisor_health_check lxd base_url lxd_project_name (Session.start s)).2.trace
        (base_url ++ "/projects/" ++ lxd_project_name) = true) ∧
    ((⟨"PUT", base_url ++ "/profiles/default", some profile_json⟩ : Request) ∈
        requests (hypervisor_health_check lxd base_url lxd_project_name (Session.start s)).2.trace ↔
      (⟨"POST", base_url ++ "/projects", some (project_json lxd_project_name)⟩ : Request) ∈
        requests (hypervisor_health_check lxd base_url lxd_project_name
          (Session.start s)).2.trace) := by
  have hurl := project_url_ne_network_url base_url lxd_project_name
  have hurl2 : ¬ (base_url ++ "/networks/" ++ multipass_bridge_name =
      base_url ++ "/projects/" ++ lxd_project_name) := fun h => hurl h.symm
  have hnu : base_url ++ "/networks/" ++ "mpbr0" = base_url ++ "/networks/mpbr0" := by
    rw [String.append_assoc]
    exact congrArg (base_url ++ ·) (by decide)
  have hurl3 : ¬ (base_url ++ "/projects/" ++ lxd_project_name = base_url ++ "/networks/mpbr0") := by
    rw [← hnu]
    exact hurl
  have hurl4 : ¬ (base_url ++ "/networks/mpbr0" = base_url ++ "/projects/" ++ lxd_project_name) :=
    fun h => hurl3 h.symm
  -- the project check
  cases hp : lxd s1 ⟨"GET", base_url ++ "/projects/" ++ lxd_project_name, none⟩ with
  | mk a s2 =>
  have hpa := hproj s1
  rw [hp] at hpa
  rcases hpa with hpa | ⟨r, hpa⟩
  · -- project absent: POST and PUT follow
    simp only at hpa
    subst hpa
    cases hpost : lxd s2 ⟨"POST", base_url ++ "/projects", some (project_json lxd_project_name)⟩ with
    | mk b s3 =>
    obtain ⟨rb, hb⟩ := hwrite s2 ⟨"POST", base_url ++ "/projects",
      some (project_json lxd_project_name)⟩ (by simp)
    rw [hpost] at hb
    simp only at hb
    subst hb
    cases hput : lxd s3 ⟨"PUT", base_url ++ "/profiles/default", some profile_json⟩ with
    | mk c s4 =>
    obtain ⟨rc, hc⟩ := hwrite s3 ⟨"PUT", base_url ++ "/profiles/default", some profile_json⟩
      (by simp)
    rw [hput] at hc
    simp only at hc
    subst hc
    cases hn : lxd s4 ⟨"GET", base_url ++ "/networks/" ++ multipass_bridge_name, none⟩ with
    | mk d s5 =>
    have hna := hnet s4
    rw [hn] at hna
    rcases hna with hna | ⟨rd, hna⟩
    · simp only at hna
      subst hna
      cases hnp : lxd s5 ⟨"POST", base_url ++ "/networks", some network_json⟩ with
      | mk f s6 =>
      obtain ⟨rf, hf⟩ := hwrite s5 ⟨"POST", base_url ++ "/networks", some network_json⟩ (by simp)
      rw [hnp] at hf
      simp only at hf
      subst hf
      simp only [hypervisor_health_check, lxd_request, Session.start, h0, hauth, hp, hpost,
        hput, hn, hnp]
      simp [requests, reported_not_found, is_not_found, expected_requests, hurl, hurl2, hnu, hurl3, hurl4,
        project_json, profile_json, devices_json, network_json, multipass_bridge_name]
    · simp only at hna
      subst hna
      simp only [hypervisor_health_check, lxd_request, Session.start, h0, hauth, hp, hpost,
        hput, hn]
      simp [requests, reported_not_found, is_not_found, expected_requests, hurl, hurl2, hnu, hurl3, hurl4,
        project_json, profile_json, devices_json, network_json, multipass_bridge_name]
  · -- project present
    simp only at hpa
    subst hpa
    cases hn : lxd s2 ⟨"GET", base_url ++ "/networks/" ++ multipass_bridge_name, none⟩ with
    | mk d s5 =>
    have hna := hnet s2
    rw [hn] at hna
    rcases hna with hna | ⟨rd, hna⟩
    · simp only at hna
      subst hna
      cases hnp : lxd s5 ⟨"POST", base_url ++ "/networks", some network_json⟩ with
      | mk f s6 =>
      obtain ⟨rf, hf⟩ := hwrite s5 ⟨"POST", base_url ++ "/networks", some network_json⟩ (by simp)
      rw [hnp] at hf
      simp only at hf
      subst hf
      simp only [hypervisor_health_check, lxd_request, Session.start, h0, hauth, hp,
        hn, hnp]
      simp [requests, reported_not_found, is_not_found, expected_requests, hurl, hurl2, hnu, hurl3, hurl4,
        project_json, profile_json, devices_json, network_json, multipass_bridge_name]
    · simp only at hna
      subst hna
      simp only [hypervisor_health_check, lxd_request, Session.start, h0, hauth, hp,
        hn]
      simp [requests, reported_not_found, is_not_found, expected_requests, hurl, hurl2, hnu, hurl3, hurl4,
        project_json, profile_json, devices_json, network_json, multipass_bridge_name]

end multipass

namespace multipass

/-- An instance of C5: the health check on the empty store daemon creates the project, the profile
device and the bridge network, in that order. -/
theorem health_check_request_sequence_witness :
    (hypervisor_health_check store_daemon "lxd" "multipass" (Session.start [])).1 = .ok () ∧
    requests (hypervisor_health_check store_daemon "lxd" "multipass" (Session.start [])).2.trace =
      expected_requests "lxd" "multipass"
        (reported_not_found
          (hypervisor_health_check store_daemon "lxd" "multipass" (Session.start [])).2.trace
          ("lxd" ++ "/projects/" ++ "multipass"))
        (reported_not_found
          (hypervisor_health_check store_daemon "lxd" "multipass" (Session.start [])).2.trace
          ("lxd" ++ "/networks/" ++ multipass_bridge_name)) ∧
    ((⟨"PUT", "lxd" ++ "/profiles/default", some profile_json⟩ : Request) ∈
        requests (hypervisor_health_check store_daemon "lxd" "multipass"
          (Session.start [])).2.trace ↔
      reported_not_found
        (hypervisor_health_check store_daemon "lxd" "multipass" (Session.start [])).2.trace
        ("lxd" ++ "/projects/" ++ "multipass") = true) ∧
    ((⟨"PUT", "lxd" ++ "/profiles/default", some profile_json⟩ : Request) ∈
        requests (hypervisor_health_check store_daemon "lxd" "multipass"
          (Session.start [])).2.trace ↔
      (⟨"POST", "lxd" ++ "/projects", some (project_json "multipass")⟩ : Request) ∈
        requests (hypervisor_health_check store_daemon "lxd" "multipass"
          (Session.start [])).2.trace) :=
  health_check_request_sequence store_daemon "lxd" "multipass" [] [] (sample_root true)
    (by decide) (by decide)
    (fun st req h => by
      by_cases hp : req.method = "POST"
      · exact ⟨[], by simp [store_daemon, h, hp]⟩
      · exact ⟨[], by simp [store_daemon, h, hp]⟩)
    (fun st => by
      have e : ("lxd" ++ "/projects/" ++ "multipass" : String) = "lxd/projects/multipass" := by
        decide
      rw [e]
      by_cases hm : "lxd/projects/multipass" ∈ st
      · exact Or.inr ⟨[], by simp [store_daemon, hm]⟩
      · exact Or.inl (by simp [store_daemon, hm]))
    (fun st => by
      have e : ("lxd" ++ "/networks/" ++ multipass_bridge_name : String) = "lxd/networks/mpbr0" := by
        decide
      rw [e]
      by_cases hm : "lxd/networks/mpbr0" ∈ st
      · exact Or.inr ⟨[], by simp [store_daemon, hm]⟩
      · exact Or.inl (by simp [store_daemon, hm]))

end multipass

namespace multipass

/-! ## Network inference -/

/-- The first element satisfying a predicate is the one no earlier element precedes. -/
theorem find_of_split {α : Type} (p : α → Bool) (pre post : List α) (a : α)
    (ha : p a = true) (hpre : ∀ x ∈ pre, p x = false) :
    (pre ++ a :: post).find? p = some a := by
  induction pre with
  | nil => simp [List.find?, ha]
  | cons x xs ih =>
    have hx : p x = false := hpre x (by simp)
    have hxs : ∀ y ∈ xs, p y = false := fun y hy => hpre y (by simp [hy])
    simp [List.find?, hx, ih hxs]

/-- The loop of `prepare_networking` rewrites position by position. -/
theorem prepare_networking_loop_getElem (host_nets : List NetworkInterfaceInfo)
    (extra : List NetworkInterface) (i : Nat) :
    (prepare_networking_loop host_nets extra)[i]? =
      (extra[i]?).map (prepare_networking_step host_nets) := by
  induction extra generalizing i with
  | nil => simp [prepare_networking_loop]
  | cons net rest ih =>
    cases i with
    | zero => simp [prepare_networking_loop]
    | succ k => simp [prepare_networking_loop, ih]

/-- Without a bridge whose links hold the id, one step leaves the interface as it was. -/
theorem prepare_networking_step_no_bridge (host_nets : List NetworkInterfaceInfo)
    (net : NetworkInterface)
    (hnone : ∀ x ∈ host_nets, x.type = "bridge" → net.id ∉ x.links) :
    prepare_networking_step host_nets net = net := by
  have h2 : host_nets.find? (fun info => info.type == "bridge" && info.links.contains net.id) =
      none := by
    rw [List.find?_eq_none]
    intro x hx
    simp only [Bool.and_eq_true, beq_iff_eq, List.contains_iff_exists_mem_beq, not_and]
    intro hb
    have := hnone x hx hb
    simpa using this
  unfold prepare_networking_step
  rw [h2]
  cases host_nets.find? (fun info => info.id == net.id) with
  | none => rfl
  | some it =>
    by_cases ht : it.type = "ethernet"
    · simp [ht, setup_bridge]
    · simp [ht]

/-- C6, as stated, fails: a request for `eth0`, an ethernet adapter of the host with no bridge over
it in the host list, comes back with id `eth0`, both on a bare host list and through `networks()`
on the sample daemon and platform. -/
theorem prepare_networking_ethernet_counterexample :
    prepare_networking_loop [⟨"eth0", "ethernet", "Ethernet device", []⟩]
      [⟨"eth0", "52:54:00:00:00:01", true⟩] = [⟨"eth0", "52:54:00:00:00:01", true⟩] ∧
    (networks sample_daemon "lxd" sample_platform (Session.start ⟨true, true, true, false⟩)).1 =
      .ok [⟨"eth0", "ethernet", "Ethernet device", []⟩,
           ⟨"br0", "bridge", "Network bridge with eth0", []⟩] ∧
    (prepare_networking sample_daemon "lxd" sample_platform
      (Session.start ⟨true, true, true, false⟩) [⟨"eth0", "52:54:00:00:00:01", true⟩]).1 =
      .ok [⟨"eth0", "52:54:00:00:00:01", true⟩] := by
  decide

/-- C6, amended: for a requested interface whose id names an ethernet-type host network while no
bridge-type host network has links containing that id, the loop sets the id to
`setup_bridge` of the id, which is the id itself: the interface comes back unchanged. -/
theorem prepare_networking_ethernet_keeps_id (host_nets : List NetworkInterfaceInfo)
    (extra : List NetworkInterface) (i : Nat) (net : NetworkInterface)
    (hnet : extra[i]? = some net)
    (heth : ∃ x ∈ host_nets, x.id = net.id ∧ x.type = "ethernet")
    (hnone : ∀ x ∈ host_nets, x.type = "bridge" → net.id ∉ x.links) :
    (prepare_networking_loop host_nets extra)[i]? =
      some { net with id := setup_bridge net.id } ∧
    (prepare_networking_loop host_nets extra)[i]? = some net := by
  have _ := heth
  rw [prepare_networking_loop_getElem, hnet]
  simp [prepare_networking_step_no_bridge host_nets net hnone, setup_bridge]

/-- An instance of the amended C6: `eth0` on a host with only that adapter. -/
theorem prepare_networking_ethernet_keeps_id_witness :
    (prepare_networking_loop [⟨"eth0", "ethernet", "Ethernet device", []⟩]
      [⟨"eth0", "52:54:00:00:00:01", true⟩])[0]? =
      some { ({ id := "eth0", mac_address := "52:54:00:00:00:01", auto_mode := true } :
        NetworkInterface) with id := setup_bridge "eth0" } ∧
    (prepare_networking_loop [⟨"eth0", "ethernet", "Ethernet device", []⟩]
      [⟨"eth0", "52:54:00:00:00:01", true⟩])[0]? = some ⟨"eth0", "52:54:00:00:00:01", true⟩ :=
  prepare_networking_ethernet_keeps_id [⟨"eth0", "ethernet", "Ethernet device", []⟩]
    [⟨"eth0", "52:54:00:00:00:01", true⟩] 0 ⟨"eth0", "52:54:00:00:00:01", true⟩ (by decide)
    ⟨⟨"eth0", "ethernet", "Ethernet device", []⟩, by decide, by decide, by decide⟩ (by decide)

/-- C7, as stated, fails: with host networks `eth0` (ethernet) and `br0` (bridge over `eth0`) and
two requests for `eth0`, both come back as `br0`, not exactly one; through `networks()`, which
reports no links, both come back as `eth0`, so none is `br0`. -/
theorem prepare_networking_duplicate_counterexample :
    prepare_networking_loop sample_host_nets
      [⟨"eth0", "52:54:00:00:00:01", true⟩, ⟨"eth0", "52:54:00:00:00:02", true⟩] =
      [⟨"br0", "52:54:00:00:00:01", true⟩, ⟨"br0", "52:54:00:00:00:02", true⟩] ∧
    ¬ ((prepare_networking_loop sample_host_nets
      [⟨"eth0", "52:54:00:00:00:01", true⟩, ⟨"eth0", "52:54:00:00:00:02", true⟩]).filter
        (fun n => n.id = "br0")).length = 1 ∧
    (prepare_networking sample_daemon "lxd" sample_platform
      (Session.start ⟨true, true, true, false⟩)
      [⟨"eth0", "52:54:00:00:00:01", true⟩, ⟨"eth0", "52:54:00:00:00:02", true⟩]).1 =
      .ok [⟨"eth0", "52:54:00:00:00:01", true⟩, ⟨"eth0", "52:54:00:00:00:02", true⟩] := by
  decide

/-- C7, amended: the loop consumes no host network and treats every requested interface on its
own, so two requested interfaces with the same id end with the same id, whatever the host list. -/
theorem prepare_networking_same_id_same_result (host_nets : List NetworkInterfaceInfo)
    (extra : List NetworkInterface) (i j : Nat) (n m : NetworkInterface)
    (hn : extra[i]? = some n) (hm : extra[j]? = some m) (hid : n.id = m.id) :
    ((prepare_networking_loop host_nets extra)[i]?).map (·.id) =
      ((prepare_networking_loop host_nets extra)[j]?).map (·.id) := by
  rw [prepare_networking_loop_getElem, prepare_networking_loop_getElem, hn, hm]
  simp only [Option.map_some', Option.some.injEq]
  unfold prepare_networking_step
  rw [hid]
  cases host_nets.find? (fun info => info.id == m.id) with
  | none => simpa using hid
  | some it =>
    by_cases ht : it.type = "ethernet"
    · simp only [ht, if_true]
      cases host_nets.find?
        (fun info => info.type == "bridge" && info.links.contains m.id) with
      | none => rfl
      | some b => rfl
    · simpa [ht] using hid

/-- An instance of the amended C7: the two requests for `eth0` of the specification example both
end as `br0`. -/
theorem prepare_networking_same_id_same_result_witness :
    ((prepare_networking_loop sample_host_nets
      [⟨"eth0", "52:54:00:00:00:01", true⟩, ⟨"eth0", "52:54:00:00:00:02", true⟩])[0]?).map
        (·.id) =
    ((prepare_networking_loop sample_host_nets
      [⟨"eth0", "52:54:00:00:00:01", true⟩, ⟨"eth0", "52:54:00:00:00:02", true⟩])[1]?).map
        (·.id) :=
  prepare_networking_same_id_same_result sample_host_nets
    [⟨"eth0", "52:54:00:00:00:01", true⟩, ⟨"eth0", "52:54:00:00:00:02", true⟩] 0 1
    ⟨"eth0", "52:54:00:00:00:01", true⟩ ⟨"eth0", "52:54:00:00:00:02", true⟩
    (by decide) (by decide) (by decide)

end multipass

namespace multipass

/-- C8: on an arbitrary host list, when the first host network with the interface's id is of type
ethernet and some bridge-type host network has links containing that id, the interface's id
becomes the id of the first such bridge in list order; nothing else of the interface changes. -/
theorem prepare_networking_uses_first_bridge (host_nets : List NetworkInterfaceInfo)
    (extra : List NetworkInterface) (i : Nat) (net : NetworkInterface)
    (pre post bpre bpost : List NetworkInterfaceInfo) (it b : NetworkInterfaceInfo)
    (hnet : extra[i]? = some net)
    (hsplit : host_nets = pre ++ it :: post) (hit : it.id = net.id)
    (hpre : ∀ x ∈ pre, x.id ≠ net.id) (hty : it.type = "ethernet")
    (hbsplit : host_nets = bpre ++ b :: bpost) (hbt : b.type = "bridge")
    (hbl : net.id ∈ b.links)
    (hbpre : ∀ x ∈ bpre, ¬ (x.type = "bridge" ∧ net.id ∈ x.links)) :
    (prepare_networking_loop host_nets extra)[i]? = some { net with id := b.id } := by
  have h1 : host_nets.find? (fun info => info.id == net.id) = some it := by
    rw [hsplit]
    apply find_of_split
    · simp [hit]
    · intro x hx
      simpa using hpre x hx
  have h2 : host_nets.find? (fun info => info.type == "bridge" && info.links.contains net.id) =
      some b := by
    rw [hbsplit]
    apply find_of_split
    · simp [hbt, hbl]
    · intro x hx
      have := hbpre x hx
      simp only [Bool.and_eq_false_imp, beq_iff_eq]
      intro hb
      simpa [hb] using this
  rw [prepare_networking_loop_getElem, hnet]
  simp only [Option.map_some', Option.some.injEq]
  unfold prepare_networking_step
  rw [h1]
  simp only [hty, if_true]
  rw [h2]

/-- An instance of C8: a request for `eth0` on the host list of the specification example ends
as `br0`. -/
theorem prepare_networking_uses_first_bridge_witness :
    (prepare_networking_loop sample_host_nets [⟨"eth0", "52:54:00:00:00:01", true⟩])[0]? =
      some { ({ id := "eth0", mac_address := "52:54:00:00:00:01", auto_mode := true } :
        NetworkInterface) with
        id := ({ id := "br0", type := "bridge", description := "Network bridge with eth0",
                 links := ["eth0"] } : NetworkInterfaceInfo).id } :=
  prepare_networking_uses_first_bridge sample_host_nets [⟨"eth0", "52:54:00:00:00:01", true⟩] 0
    ⟨"eth0", "52:54:00:00:00:01", true⟩
    [] [⟨"br0", "bridge", "Network bridge with eth0", ["eth0"]⟩]
    [⟨"eth0", "ethernet", "Ethernet device", []⟩] []
    ⟨"eth0", "ethernet", "Ethernet device", []⟩ ⟨"br0", "bridge", "Network bridge with eth0", ["eth0"]⟩
    (by decide) (by decide) (by decide) (by decide) (by decide) (by decide) (by decide) (by decide)
    (by decide)

/-- C9: a requested interface whose id matches no host network, or whose first matching host
network has a type other than ethernet, comes back unchanged. -/
theorem prepare_networking_passthrough (host_nets : List NetworkInterfaceInfo)
    (extra : List NetworkInterface) (i : Nat) (net : NetworkInterface)
    (hnet : extra[i]? = some net)
    (h : (∀ x ∈ host_nets, x.id ≠ net.id) ∨
      ∃ pre it post, host_nets = pre ++ it :: post ∧ it.id = net.id ∧
        (∀ x ∈ pre, x.id ≠ net.id) ∧ it.type ≠ "ethernet") :
    (prepare_networking_loop host_nets extra)[i]? = some net := by
  rw [prepare_networking_loop_getElem, hnet]
  rcases h with h | ⟨pre, it, post, hsplit, hit, hpre, hty⟩
  · have h1 : host_nets.find? (fun info => info.id == net.id) = none := by
      rw [List.find?_eq_none]
      intro x hx
      simpa using h x hx
    simp [prepare_networking_step, h1]
  · have h1 : host_nets.find? (fun info => info.id == net.id) = some it := by
      rw [hsplit]
      apply find_of_split
      · simp [hit]
      · intro x hx
        simpa using hpre x hx
    simp [prepare_networking_step, h1, hty]

/-- An instance of C9: a request for the bridge `br0` of the specification example stays `br0`. -/
theorem prepare_networking_passthrough_witness :
    (prepare_networking_loop sample_host_nets [⟨"br0", "52:54:00:00:00:03", false⟩])[0]? =
      some ⟨"br0", "52:54:00:00:00:03", false⟩ :=
  prepare_networking_passthrough sample_host_nets [⟨"br0", "52:54:00:00:00:03", false⟩] 0
    ⟨"br0", "52:54:00:00:00:03", false⟩ (by decide)
    (Or.inr ⟨[⟨"eth0", "ethernet", "Ethernet device", []⟩],
      ⟨"br0", "bridge", "Network bridge with eth0", ["eth0"]⟩, [],
      by decide, by decide, by decide, by decide⟩)

end multipass

namespace multipass

/-! ## Network listing -/

/-- Passing one more backend entry extends the set of matched names by that entry's name when
the entry is eligible. -/
theorem matched_earlier_snoc (platform : PlatformMap) (earlier : List QJsonValue)
    (e : QJsonValue) (k : String) :
    matched_earlier platform (earlier ++ [e]) k =
      (matched_earlier platform earlier k || (eligible platform e && entry_name e == k)) := by
  simp [matched_earlier, List.any_append]

/-- The loop of `networks()` computes the specified listing, when the working map is the platform
map without the names matched so far. -/
theorem networks_loop_eq_spec (platform : PlatformMap) (rest : List QJsonValue) :
    ∀ (pm : PlatformMap) (earlier : List QJsonValue) (ret : List NetworkInterfaceInfo),
      (∀ k, pm k = if matched_earlier platform earlier k then none else platform k) →
      networks_loop pm ret rest = ret ++ networks_spec platform earlier rest := by
  induction rest with
  | nil => intro pm earlier ret _; simp [networks_loop, networks_spec]
  | cons e rest ih =>
    intro pm earlier ret hpm
    have hname : (e.toObject.at "name").toString = entry_name e := rfl
    by_cases hq : entry_name e = ""
    · -- empty name: skipped
      have hel : eligible platform e = false := by simp [eligible, hq]
      have hpm2 : ∀ k, pm k =
          if matched_earlier platform (earlier ++ [e]) k then none else platform k := by
        intro k
        rw [matched_earlier_snoc, hel]
        simpa using hpm k
      rw [networks_loop, networks_spec]
      simp only [hname, hq, ne_eq, not_true_eq_false, if_false, hel, Bool.false_and,
        Bool.false_eq_true, List.nil_append]
      exact ih pm (earlier ++ [e]) ret hpm2
    · cases hfind : pm (entry_name e) with
      | none =>
        -- not in the working map: unknown to the platform, or matched before
        have hcond : (eligible platform e && !matched_earlier platform earlier (entry_name e)) =
            false := by
          have := hpm (entry_name e)
          rw [hfind] at this
          by_cases hme : matched_earlier platform earlier (entry_name e) = true
          · simp [hme]
          · have hme2 : matched_earlier platform earlier (entry_name e) = false := by
              simpa using hme
            rw [hme2] at this
            simp only [Bool.false_eq_true, if_false] at this
            simp [eligible, ← this]
        have hpm2 : ∀ k, pm k =
            if matched_earlier platform (earlier ++ [e]) k then none else platform k := by
          intro k
          rw [matched_earlier_snoc]
          by_cases hk : entry_name e = k
          · subst hk
            by_cases hme : matched_earlier platform earlier (entry_name e) = true
            · simp [hme, hfind]
            · have hme2 : matched_earlier platform earlier (entry_name e) = false := by
                simpa using hme
              rw [hme2] at hcond
              have hel : eligible platform e = false := by simpa using hcond
              rw [hel]
              simpa using hpm (entry_name e)
          · have : (entry_name e == k) = false := by simpa using hk
            rw [this]
            simpa using hpm k
        rw [networks_loop, networks_spec]
        simp only [hname, hq, ne_eq, not_false_eq_true, if_true, hfind, hcond,
          Bool.false_eq_true, if_false, List.nil_append]
        exact ih pm (earlier ++ [e]) ret hpm2
      | some info =>
        have hpme := hpm (entry_name e)
        rw [hfind] at hpme
        have hme : matched_earlier platform earlier (entry_name e) = false := by
          by_cases hme : matched_earlier platform earlier (entry_name e) = true
          · rw [hme] at hpme
            simp at hpme
          · simpa using hme
        rw [hme] at hpme
        simp only [Bool.false_eq_true, if_false] at hpme
        by_cases hsup : info.type ∈ supported_types
        · -- matched now: listed, and erased from the working map
          have hel : eligible platform e = true := by
            have : info.type = "bridge" ∨ info.type = "ethernet" := by
              simpa [supported_types] using hsup
            simp [eligible, hq, ← hpme, this]
          have hpm2 : ∀ k, (pm.erase (entry_name e)) k =
              if matched_earlier platform (earlier ++ [e]) k then none else platform k := by
            intro k
            rw [matched_earlier_snoc, hel]
            by_cases hk : k = entry_name e
            · subst hk
              simp [PlatformMap.erase]
            · have hk2 : (entry_name e == k) = false := by
                simpa using fun h => hk h.symm
              rw [hk2]
              simpa [PlatformMap.erase, hk] using hpm k
          rw [networks_loop, networks_spec]
          simp only [hname, hq, ne_eq, not_false_eq_true, if_true, hfind, hsup, hel, hme,
            Bool.not_false, Bool.and_self, listed_entry, ← hpme, Option.map_some',
            Option.toList_some]
          rw [ih _ (earlier ++ [e]) _ hpm2]
          simp
        · -- unsupported type: skipped
          have hel : eligible platform e = false := by
            have : ¬ (info.type = "bridge" ∨ info.type = "ethernet") := by
              simpa [supported_types] using hsup
            simp [eligible, ← hpme, (not_or.mp this).1, (not_or.mp this).2]
          have hpm2 : ∀ k, pm k =
              if matched_earlier platform (earlier ++ [e]) k then none else platform k := by
            intro k
            rw [matched_earlier_snoc, hel]
            simpa using hpm k
          rw [networks_loop, networks_spec]
          simp only [hname, hq, ne_eq, not_false_eq_true, if_true, hfind, hsup, if_false, hel,
            Bool.false_and, Bool.false_eq_true, List.nil_append]
          exact ih pm (earlier ++ [e]) ret hpm2

/-- C10: when the listing request succeeds, `networks()` returns exactly the specified listing of
the backend entries (in backend order: non-empty name, key of the platform map, platform type
bridge or ethernet, not matched by an earlier entry; id the backend name, type the platform
type).  With an empty backend list the result is empty and the platform is not asked; otherwise
it is asked once. -/
theorem networks_is_specified_listing {σ : Type} (lxd : Daemon σ) (base_url : String)
    (platform : PlatformMap) (s s1 : σ) (reply : QJsonObject)
    (h : lxd s ⟨"GET", base_url ++ "/networks?recursion=1", none⟩ = (.ok reply, s1)) :
    (networks lxd base_url platform (Session.start s)).1 =
      .ok (networks_spec platform [] (reply.at "metadata").toArray) ∧
    (networks lxd base_url platform (Session.start s)).2.platform_calls =
      (if (reply.at "metadata").toArray = [] then 0 else 1) ∧
    ((reply.at "metadata").toArray = [] →
      (networks lxd base_url platform (Session.start s)).1 = .ok []) := by
  have hloop := networks_loop_eq_spec platform (reply.at "metadata").toArray platform [] []
    (by intro k; simp [matched_earlier])
  by_cases hem : (reply.at "metadata").toArray = []
  · simp [networks, lxd_request, Session.start, h, hem, networks_spec]
  · simp [networks, lxd_request, Session.start, h, hem, hloop]

/-- An instance of C10: the listing of the sample daemon against the sample platform; the second
backend entry named `eth0` and the entry unknown to the platform are left out. -/
theorem networks_is_specified_listing_witness :
    (networks sample_daemon "lxd" sample_platform (Session.start ⟨true, true, true, false⟩)).1 =
      .ok (networks_spec sample_platform [] (sample_networks_reply.at "metadata").toArray) ∧
    (networks sample_daemon "lxd" sample_platform
      (Session.start ⟨true, true, true, false⟩)).2.platform_calls =
      (if (sample_networks_reply.at "metadata").toArray = [] then 0 else 1) ∧
    ((sample_networks_reply.at "metadata").toArray = [] →
      (networks sample_daemon "lxd" sample_platform
        (Session.start ⟨true, true, true, false⟩)).1 = .ok []) :=
  networks_is_specified_listing sample_daemon "lxd" sample_platform ⟨true, true, true, false⟩
    ⟨true, true, true, false⟩ sample_networks_reply (by decide)

end multipass

namespace multipass

/-- Eligibility of a backend entry depends on its name only. -/
theorem eligible_of_same_name (platform : PlatformMap) (a b : QJsonValue)
    (h : entry_name a = entry_name b) : eligible platform a = eligible platform b := by
  simp [eligible, h]

/-- An eligible entry yields a listed entry. -/
theorem listed_entry_of_eligible (platform : PlatformMap) (e : QJsonValue)
    (h : eligible platform e = true) :
    ∃ info, platform (entry_name e) = some info ∧
      listed_entry platform e = some
        { id := entry_name e, type := info.type,
          description :=
            if (e.toObject.at "description").toString = "" then info.description
            else (e.toObject.at "description").toString,
          links := [] } := by
  cases hp : platform (entry_name e) with
  | none => simp [eligible, hp] at h
  | some info => exact ⟨info, rfl, by simp [listed_entry, hp]⟩

/-- Every entry of the specified listing comes from the first backend entry of its name among
those still to pass, an eligible one whose name was not matched before. -/
theorem networks_spec_mem (platform : PlatformMap) (rest : List QJsonValue) :
    ∀ (earlier : List QJsonValue) (x : NetworkInterfaceInfo),
      x ∈ networks_spec platform earlier rest →
      ∃ pre e post, rest = pre ++ e :: post ∧ (∀ y ∈ pre, entry_name y ≠ entry_name e) ∧
        eligible platform e = true ∧ matched_earlier platform earlier (entry_name e) = false ∧
        listed_entry platform e = some x := by
  induction rest with
  | nil => intro earlier x hx; simp [networks_spec] at hx
  | cons e rest ih =>
    intro earlier x hx
    rw [networks_spec, List.mem_append] at hx
    rcases hx with hx | hx
    · by_cases hc : (eligible platform e && !matched_earlier platform earlier (entry_name e)) = true
      · rw [if_pos hc] at hx
        simp only [Bool.and_eq_true, Bool.not_eq_true'] at hc
        refine ⟨[], e, rest, rfl, by simp, hc.1, hc.2, ?_⟩
        cases hl : listed_entry platform e with
        | none => simp [hl] at hx
        | some v =>
          rw [hl] at hx
          simp only [Option.toList_some, List.mem_singleton] at hx
          rw [hx]
      · rw [if_neg hc] at hx
        simp at hx
    · obtain ⟨pre, e2, post, hsplit, hpre, hel, hme, hl⟩ := ih (earlier ++ [e]) x hx
      rw [matched_earlier_snoc] at hme
      simp only [Bool.or_eq_false_iff, Bool.and_eq_false_imp, beq_eq_false_iff_ne, ne_eq] at hme
      have hne : entry_name e ≠ entry_name e2 := by
        intro heq
        have he : eligible platform e = true := by
          rw [eligible_of_same_name platform e e2 heq]
          exact hel
        exact hme.2 he heq
      refine ⟨e :: pre, e2, post, by simp [hsplit], ?_, hel, hme.1, hl⟩
      intro y hy
      rcases List.mem_cons.mp hy with hy | hy
      · rw [hy]
        exact hne
      · exact hpre y hy

/-- The ids of the specified listing are pairwise different. -/
theorem networks_spec_nodup (platform : PlatformMap) (rest : List QJsonValue) :
    ∀ earlier : List QJsonValue, ((networks_spec platform earlier rest).map (·.id)).Nodup := by
  induction rest with
  | nil => intro earlier; simp [networks_spec]
  | cons e rest ih =>
    intro earlier
    rw [networks_spec, List.map_append, List.nodup_append]
    refine ⟨?_, ih (earlier ++ [e]), ?_⟩
    · by_cases hc : (eligible platform e && !matched_earlier platform earlier (entry_name e)) = true
      · rw [if_pos hc]
        cases listed_entry platform e <;> simp
      · rw [if_neg hc]
        simp
    · intro a ha hb
      by_cases hc : (eligible platform e && !matched_earlier platform earlier (entry_name e)) = true
      · rw [if_pos hc] at ha
        simp only [Bool.and_eq_true, Bool.not_eq_true'] at hc
        obtain ⟨info, _, hl⟩ := listed_entry_of_eligible platform e hc.1
        rw [hl] at ha
        simp only [Option.toList_some, List.map_cons, List.map_nil, List.mem_singleton] at ha
        obtain ⟨x, hx, hxa⟩ := List.mem_map.mp hb
        obtain ⟨pre, e2, post, _, _, hel, hme, hl2⟩ :=
          networks_spec_mem platform rest (earlier ++ [e]) x hx
        obtain ⟨info2, _, hl3⟩ := listed_entry_of_eligible platform e2 hel
        rw [hl3] at hl2
        have hid : x.id = entry_name e2 := by
          rw [← Option.some.inj hl2]
        rw [matched_earlier_snoc] at hme
        simp only [Bool.or_eq_false_iff, Bool.and_eq_false_imp, beq_eq_false_iff_ne, ne_eq] at hme
        apply hme.2 hc.1
        rw [← hid, hxa, ha]
      · rw [if_neg hc] at ha
        simp at ha

/-- C11: when the listing request succeeds, no two entries of the `networks()` result have the
same id, whatever the backend list (repeated names included) and the platform map. -/
theorem networks_ids_distinct {σ : Type} (lxd : Daemon σ) (base_url : String)
    (platform : PlatformMap) (s s1 : σ) (reply : QJsonObject)
    (h : lxd s ⟨"GET", base_url ++ "/networks?recursion=1", none⟩ = (.ok reply, s1)) :
    ∃ host_nets, (networks lxd base_url platform (Session.start s)).1 = .ok host_nets ∧
      (host_nets.map (·.id)).Nodup := by
  have hloop := networks_loop_eq_spec platform (reply.at "metadata").toArray platform [] []
    (by intro k; simp [matched_earlier])
  refine ⟨networks_spec platform [] (reply.at "metadata").toArray, ?_,
    networks_spec_nodup platform _ []⟩
  by_cases hem : (reply.at "metadata").toArray = []
  · simp [networks, lxd_request, Session.start, h, hem, networks_spec]
  · simp [networks, lxd_request, Session.start, h, hem, hloop]

/-- An instance of C11: the sample daemon lists `eth0` twice, the result holds it once. -/
theorem networks_ids_distinct_witness :
    ∃ host_nets, (networks sample_daemon "lxd" sample_platform
        (Session.start ⟨true, true, true, false⟩)).1 = .ok host_nets ∧
      (host_nets.map (·.id)).Nodup :=
  networks_ids_distinct sample_daemon "lxd" sample_platform ⟨true, true, true, false⟩
    ⟨true, true, true, false⟩ sample_networks_reply (by decide)

end multipass

namespace multipass

/-- C12: when the listing request succeeds, every entry of the `networks()` result comes from the
first backend entry of that name and the platform entry of that name; its description is the
backend description when that is non-empty, whatever the platform description, and the platform
description when the backend description is empty or missing. -/
theorem networks_description_fallback {σ : Type} (lxd : Daemon σ) (base_url : String)
    (platform : PlatformMap) (s s1 : σ) (reply : QJsonObject)
    (h : lxd s ⟨"GET", base_url ++ "/networks?recursion=1", none⟩ = (.ok reply, s1)) :
    ∃ host_nets, (networks lxd base_url platform (Session.start s)).1 = .ok host_nets ∧
      ∀ x ∈ host_nets, ∃ pre e post info,
        (reply.at "metadata").toArray = pre ++ e :: post ∧
        (∀ y ∈ pre, entry_name y ≠ x.id) ∧ entry_name e = x.id ∧
        platform x.id = some info ∧
        ((e.toObject.at "description").toString ≠ "" →
          x.description = (e.toObject.at "description").toString) ∧
        ((e.toObject.at "description").toString = "" → x.description = info.description) := by
  have hloop := networks_loop_eq_spec platform (reply.at "metadata").toArray platform [] []
    (by intro k; simp [matched_earlier])
  refine ⟨networks_spec platform [] (reply.at "metadata").toArray, ?_, ?_⟩
  · by_cases hem : (reply.at "metadata").toArray = []
    · simp [networks, lxd_request, Session.start, h, hem, networks_spec]
    · simp [networks, lxd_request, Session.start, h, hem, hloop]
  · intro x hx
    obtain ⟨pre, e, post, hsplit, hpre, hel, _, hl⟩ :=
      networks_spec_mem platform _ [] x hx
    obtain ⟨info, hinfo, hl2⟩ := listed_entry_of_eligible platform e hel
    rw [hl2] at hl
    have hx2 := (Option.some.inj hl).symm
    have hid : x.id = entry_name e := by rw [hx2]
    refine ⟨pre, e, post, info, hsplit, ?_, hid.symm, by rw [hid]; exact hinfo, ?_, ?_⟩
    · intro y hy
      rw [hid]
      exact hpre y hy
    · intro hne
      rw [hx2]
      simp [hne]
    · intro hemp
      rw [hx2]
      simp [hemp]

/-- An instance of C12 on the sample daemon and platform. -/
theorem networks_description_fallback_witness :
    ∃ host_nets, (networks sample_daemon "lxd" sample_platform
        (Session.start ⟨true, true, true, false⟩)).1 = .ok host_nets ∧
      ∀ x ∈ host_nets, ∃ pre e post info,
        (sample_networks_reply.at "metadata").toArray = pre ++ e :: post ∧
        (∀ y ∈ pre, entry_name y ≠ x.id) ∧ entry_name e = x.id ∧
        sample_platform x.id = some info ∧
        ((e.toObject.at "description").toString ≠ "" →
          x.description = (e.toObject.at "description").toString) ∧
        ((e.toObject.at "description").toString = "" → x.description = info.description) :=
  networks_description_fallback sample_daemon "lxd" sample_platform ⟨true, true, true, false⟩
    ⟨true, true, true, false⟩ sample_networks_reply (by decide)

/-- C13: when the root GET fails to connect, the health check fails with a `runtime_error` whose
message is the connection error's message followed by the guidance to install and enable the LXD
snap and to connect the LXD interface, and the root GET is its only request. -/
theorem health_check_unreachable {σ : Type} (lxd : Daemon σ)
    (base_url lxd_project_name : String) (s s1 : σ) (what : String)
    (h0 : lxd s ⟨"GET", base_url, none⟩ = (.error (.LocalSocketConnectionException what), s1)) :
    (hypervisor_health_check lxd base_url lxd_project_name (Session.start s)).1 =
      .error (.runtime_error (what ++
        ("\n\nPlease ensure the LXD snap is installed and enabled. Also make sure\n" ++
         "the LXD interface is connected via `snap connect multipass:lxd lxd`."))) ∧
    requests (hypervisor_health_check lxd base_url lxd_project_name (Session.start s)).2.trace =
      [⟨"GET", base_url, none⟩] := by
  simp [hypervisor_health_check, lxd_request, Session.start, requests, h0, snap_hint]

/-- An instance of C13: a daemon whose socket cannot be reached. -/
theorem health_check_unreachable_witness :
    (hypervisor_health_check unreachable_daemon "lxd" "multipass" (Session.start ())).1 =
      .error (.runtime_error ("Cannot connect to lxd socket" ++
        ("\n\nPlease ensure the LXD snap is installed and enabled. Also make sure\n" ++
         "the LXD interface is connected via `snap connect multipass:lxd lxd`."))) ∧
    requests (hypervisor_health_check unreachable_daemon "lxd" "multipass"
      (Session.start ())).2.trace = [⟨"GET", "lxd", none⟩] :=
  health_check_unreachable unreachable_daemon "lxd" "multipass" () ()
    "Cannot connect to lxd socket" (by decide)

/-- C15: when the root GET succeeds, `get_backend_version_string` returns `lxd-` followed by
`metadata.environment.server_version` of the reply (the empty string when that is missing or not
a string), and the root GET is its only request. -/
theorem backend_version_string_format {σ : Type} (lxd : Daemon σ) (base_url : String)
    (s s1 : σ) (reply : QJsonObject)
    (h0 : lxd s ⟨"GET", base_url, none⟩ = (.ok reply, s1)) :
    (get_backend_version_string lxd base_url (Session.start s)).1 =
      .ok ("lxd-" ++
        (match ((reply.at "metadata").toObject.at "environment").toObject.at "server_version" with
         | .string version => version
         | _ => "")) ∧
    requests (get_backend_version_string lxd base_url (Session.start s)).2.trace =
      [⟨"GET", base_url, none⟩] := by
  simp only [get_backend_version_string, lxd_request, Session.start, requests, h0]
  refine ⟨?_, by simp⟩
  cases ((reply.at "metadata").toObject.at "environment").toObject.at "server_version" <;> rfl

/-- An instance of C15: the sample daemon reports version 4.0. -/
theorem backend_version_string_format_witness :
    (get_backend_version_string sample_daemon "lxd" (Session.start ⟨true, true, true, false⟩)).1 =
      .ok ("lxd-" ++
        (match (((sample_root true).at "metadata").toObject.at "environment").toObject.at
            "server_version" with
         | .string version => version
         | _ => "")) ∧
    requests (get_backend_version_string sample_daemon "lxd"
      (Session.start ⟨true, true, true, false⟩)).2.trace = [⟨"GET", "lxd", none⟩] :=
  backend_version_string_format sample_daemon "lxd" ⟨true, true, true, false⟩
    ⟨true, true, true, false⟩ (sample_root true) (by decide)

end multipass

namespace multipass

/-- C16: whenever a request of the health check fails with an error it does not handle (a POST or
PUT failing in any way, or the project or network GET failing other than with not-found), the
health check fails with that error unchanged and the failing request is its last request; no
request with method DELETE is ever issued. -/
theorem health_check_fails_fast {σ : Type} (lxd : Daemon σ)
    (base_url lxd_project_name : String) (s : σ) (req : Request) (e : Exception)
    (hmem : (req, (.error e : Reply)) ∈
      (hypervisor_health_check lxd base_url lxd_project_name (Session.start s)).2.trace)
    (hunhandled : req.method = "POST" ∨ req.method = "PUT" ∨
      (req.method = "GET" ∧ req.url ≠ base_url ∧ e ≠ .LXDNotFoundException)) :
    (hypervisor_health_check lxd base_url lxd_project_name (Session.start s)).1 = .error e ∧
    (hypervisor_health_check lxd base_url lxd_project_name (Session.start s)).2.trace.getLast? =
      some (req, .error e) ∧
    (requests (hypervisor_health_check lxd base_url lxd_project_name
      (Session.start s)).2.trace).filter (fun q => q.method = "DELETE") = [] := by
  cases h0 : lxd s ⟨"GET", base_url, none⟩ with
  | mk r0 s1 =>
  cases r0 with
  | error e0 => cases e0 <;> simp_all [hypervisor_health_check, lxd_request, Session.start, requests]
  | ok reply =>
  by_cases hauth : (reply.at "metadata").toObject.at "auth" = .string "trusted"
  swap
  · simp_all [hypervisor_health_check, lxd_request, Session.start, requests]
  cases hp : lxd s1 ⟨"GET", base_url ++ "/projects/" ++ lxd_project_name, none⟩ with
  | mk r1 s2 =>
  cases r1 with
  | ok v1 =>
    cases hn : lxd s2 ⟨"GET", base_url ++ "/networks/" ++ multipass_bridge_name, none⟩ with
    | mk r4 s5 =>
    cases r4 with
    | error e4 =>
      cases e4 with
      | LXDNotFoundException =>
        cases hnp : lxd s5 ⟨"POST", base_url ++ "/networks", some network_json⟩ with
        | mk r5 s6 =>
        cases r5 with
        | error e5 =>
          simp_all [hypervisor_health_check, lxd_request, Session.start, requests]
          rcases hmem with ⟨rfl, rfl⟩ | ⟨rfl, rfl⟩ | ⟨rfl, rfl⟩ <;> simp_all
        | ok v5 => simp_all [hypervisor_health_check, lxd_request, Session.start, requests]
      | LocalSocketConnectionException w => simp_all [hypervisor_health_check, lxd_request, Session.start, requests]
      | runtime_error w => simp_all [hypervisor_health_check, lxd_request, Session.start, requests]
    | ok v4 => simp_all [hypervisor_health_check, lxd_request, Session.start, requests]
  | error e1 =>
    cases e1 with
    | LocalSocketConnectionException w => simp_all [hypervisor_health_check, lxd_request, Session.start, requests]
    | runtime_error w => simp_all [hypervisor_health_check, lxd_request, Session.start, requests]
    | LXDNotFoundException =>
      cases hpost : lxd s2 ⟨"POST", base_url ++ "/projects",
          some (project_json lxd_project_name)⟩ with
      | mk r2 s3 =>
      cases r2 with
      | error e2 =>
        simp_all [hypervisor_health_check, lxd_request, Session.start, requests]
        rcases hmem with ⟨rfl, rfl⟩ | ⟨rfl, rfl⟩ | ⟨rfl, rfl⟩ <;> simp_all
      | ok v2 =>
        cases hput : lxd s3 ⟨"PUT", base_url ++ "/profiles/default", some profile_json⟩ with
        | mk r3 s4 =>
        cases r3 with
        | error e3 =>
          simp_all [hypervisor_health_check, lxd_request, Session.start, requests]
          rcases hmem with ⟨rfl, rfl⟩ | ⟨rfl, rfl⟩ | ⟨rfl, rfl⟩ <;> simp_all
        | ok v3 =>
          cases hn : lxd s4 ⟨"GET", base_url ++ "/networks/" ++ multipass_bridge_name, none⟩ with
          | mk r4 s5 =>
          cases r4 with
          | error e4 =>
            cases e4 with
            | LXDNotFoundException =>
              cases hnp : lxd s5 ⟨"POST", base_url ++ "/networks", some network_json⟩ with
              | mk r5 s6 =>
              cases r5 with
              | error e5 =>
                simp_all [hypervisor_health_check, lxd_request, Session.start, requests]
                rcases hmem with ⟨rfl, rfl⟩ | ⟨rfl, rfl⟩ | ⟨rfl, rfl⟩ <;> simp_all
              | ok v5 =>
                simp_all [hypervisor_health_check, lxd_request, Session.start, requests]
                rcases hmem with ⟨rfl, rfl⟩ | ⟨rfl, rfl⟩ | ⟨rfl, rfl⟩ <;> simp_all
            | LocalSocketConnectionException w =>
              simp_all [hypervisor_health_check, lxd_request, Session.start, requests]
              rcases hmem with ⟨rfl, rfl⟩ | ⟨rfl, rfl⟩ | ⟨rfl, rfl⟩ <;> simp_all
            | runtime_error w =>
              simp_all [hypervisor_health_check, lxd_request, Session.start, requests]
              rcases hmem with ⟨rfl, rfl⟩ | ⟨rfl, rfl⟩ | ⟨rfl, rfl⟩ <;> simp_all
          | ok v4 => simp_all [hypervisor_health_check, lxd_request, Session.start, requests]

end multipass

namespace multipass

/-- An instance of C16: the bridge network POST is refused after the project was created; the
health check fails with that error and the refused POST is its last request. -/
theorem health_check_fails_fast_witness :
    (hypervisor_health_check refusing_network_daemon "lxd" "multipass" (Session.start [])).1 =
      .error (.runtime_error "not authorized") ∧
    (hypervisor_health_check refusing_network_daemon "lxd" "multipass"
      (Session.start [])).2.trace.getLast? =
      some (⟨"POST", "lxd/networks", some network_json⟩, .error (.runtime_error "not authorized")) ∧
    (requests (hypervisor_health_check refusing_network_daemon "lxd" "multipass"
      (Session.start [])).2.trace).filter (fun q => q.method = "DELETE") = [] :=
  health_check_fails_fast refusing_network_daemon "lxd" "multipass" []
    ⟨"POST", "lxd/networks", some network_json⟩ (.runtime_error "not authorized")
    (by decide) (Or.inl (by decide))

/-- Every entry of the specified listing has no links. -/
theorem networks_spec_links_empty (platform : PlatformMap) (earlier rest : List QJsonValue)
    (x : NetworkInterfaceInfo) (hx : x ∈ networks_spec platform earlier rest) : x.links = [] := by
  obtain ⟨_, e, _, _, _, hel, _, hl⟩ := networks_spec_mem platform rest earlier x hx
  obtain ⟨info, _, hl2⟩ := listed_entry_of_eligible platform e hel
  rw [hl2] at hl
  rw [← Option.some.inj hl]

/-- Without any bridge whose links hold an id, the loop returns the requested interfaces as they
were. -/
theorem prepare_networking_loop_no_links (host_nets : List NetworkInterfaceInfo)
    (hlinks : ∀ x ∈ host_nets, x.links = []) (extra : List NetworkInterface) :
    prepare_networking_loop host_nets extra = extra := by
  induction extra with
  | nil => rfl
  | cons net rest ih =>
    rw [prepare_networking_loop, ih, prepare_networking_step_no_bridge]
    intro x hx _
    rw [hlinks x hx]
    simp

/-- C17: when the listing request succeeds, every entry of the `networks()` result has an empty
links sequence, and `prepare_networking` returns every requested interface unchanged, whatever
the backend reply and the platform map. -/
theorem prepare_networking_on_networks_is_identity {σ : Type} (lxd : Daemon σ)
    (base_url : String) (platform : PlatformMap) (s s1 : σ) (reply : QJsonObject)
    (extra_interfaces : List NetworkInterface)
    (h : lxd s ⟨"GET", base_url ++ "/networks?recursion=1", none⟩ = (.ok reply, s1)) :
    (∃ host_nets, (networks lxd base_url platform (Session.start s)).1 = .ok host_nets ∧
      ∀ x ∈ host_nets, x.links = []) ∧
    (prepare_networking lxd base_url platform (Session.start s) extra_interfaces).1 =
      .ok extra_interfaces := by
  have hloop := networks_loop_eq_spec platform (reply.at "metadata").toArray platform [] []
    (by intro k; simp [matched_earlier])
  have hnet : (networks lxd base_url platform (Session.start s)).1 =
      .ok (networks_spec platform [] (reply.at "metadata").toArray) := by
    by_cases hem : (reply.at "metadata").toArray = []
    · simp [networks, lxd_request, Session.start, h, hem, networks_spec]
    · simp [networks, lxd_request, Session.start, h, hem, hloop]
  have hlinks := networks_spec_links_empty platform [] (reply.at "metadata").toArray
  refine ⟨⟨_, hnet, hlinks⟩, ?_⟩
  unfold prepare_networking
  cases hn : networks lxd base_url platform (Session.start s) with
  | mk r sess =>
    rw [hn] at hnet
    simp only at hnet
    subst hnet
    simp only [prepare_networking_loop_no_links _ hlinks]

/-- An instance of C17: on the sample platform, where `br0` bridges `eth0`, requests for `eth0`
and `br0` both come back unchanged. -/
theorem prepare_networking_on_networks_is_identity_witness :
    (∃ host_nets, (networks sample_daemon "lxd" sample_platform
        (Session.start ⟨true, true, true, false⟩)).1 = .ok host_nets ∧
      ∀ x ∈ host_nets, x.links = []) ∧
    (prepare_networking sample_daemon "lxd" sample_platform
      (Session.start ⟨true, true, true, false⟩)
      [⟨"eth0", "52:54:00:00:00:01", true⟩, ⟨"br0", "52:54:00:00:00:03", false⟩]).1 =
      .ok [⟨"eth0", "52:54:00:00:00:01", true⟩, ⟨"br0", "52:54:00:00:00:03", false⟩] :=
  prepare_networking_on_networks_is_identity sample_daemon "lxd" sample_platform
    ⟨true, true, true, false⟩ ⟨true, true, true, false⟩ sample_networks_reply
    [⟨"eth0", "52:54:00:00:00:01", true⟩, ⟨"br0", "52:54:00:00:00:03", false⟩] (by decide)

/-- One step keeps the MAC address and the auto mode. -/
theorem prepare_networking_step_frame (host_nets : List NetworkInterfaceInfo)
    (net : NetworkInterface) :
    (prepare_networking_step host_nets net).mac_address = net.mac_address ∧
    (prepare_networking_step host_nets net).auto_mode = net.auto_mode := by
  unfold prepare_networking_step
  cases host_nets.find? (fun info => info.id == net.id) with
  | none => exact ⟨rfl, rfl⟩
  | some it =>
    by_cases ht : it.type = "ethernet"
    · simp only [ht, if_true]
      cases host_nets.find? (fun info => info.type == "bridge" && info.links.contains net.id) with
      | none => exact ⟨rfl, rfl⟩
      | some b => exact ⟨rfl, rfl⟩
    · simp [ht]

/-- C18: for every host network list and every list of requested interfaces, the loop of
`prepare_networking` returns a list of the same length with the same MAC addresses and auto modes
in the same order, and an interface at any position, whatever stands before and after it, gets
what it would get as the only requested interface. -/
theorem prepare_networking_changes_only_ids (host_nets : List NetworkInterfaceInfo)
    (extra before after : List NetworkInterface) (net : NetworkInterface) :
    (prepare_networking_loop host_nets extra).length = extra.length ∧
    (prepare_networking_loop host_nets extra).map (·.mac_address) =
      extra.map (·.mac_address) ∧
    (prepare_networking_loop host_nets extra).map (·.auto_mode) = extra.map (·.auto_mode) ∧
    (prepare_networking_loop host_nets (before ++ net :: after))[before.length]? =
      (prepare_networking_loop host_nets [net])[0]? := by
  refine ⟨?_, ?_, ?_, ?_⟩
  · induction extra with
    | nil => rfl
    | cons net rest ih => simp [prepare_networking_loop, ih]
  · induction extra with
    | nil => rfl
    | cons net rest ih =>
      simp [prepare_networking_loop, ih, (prepare_networking_step_frame host_nets net).1]
  · induction extra with
    | nil => rfl
    | cons net rest ih =>
      simp [prepare_networking_loop, ih, (prepare_networking_step_frame host_nets net).2]
  · have hat : (before ++ net :: after)[before.length]? = some net := by
      rw [List.getElem?_append_right (le_refl _)]
      simp
    rw [prepare_networking_loop_getElem, prepare_networking_loop_getElem, hat]
    rfl

end multipass

namespace multipass

/-! ## Settings -/

/-- C14: for a `get` that does not itself throw `UnsupportedSettingValueType`, `get_as` throws
`UnsupportedSettingValueType` exactly when `get` succeeds and the target type has no conversion
from a string; for a convertible target type it never throws it, and a stored value malformed for
the type gives the default-constructed value. -/
theorem get_as_unsupported_iff {T : Type} (get : String → Except SettingsException String)
    (t : TargetType T) (key : String)
    (hget : ∀ k, get key ≠ .error (.UnsupportedSettingValueType k)) :
    ((∃ k, get_as get t key = .error (.UnsupportedSettingValueType k)) ↔
      ((∃ var, get key = .ok var) ∧ t.canConvert = false)) ∧
    (get_as get t key = .error (.UnsupportedSettingValueType key) ↔
      ((∃ var, get key = .ok var) ∧ t.canConvert = false)) ∧
    (t.canConvert = true → ∀ k, get_as get t key ≠ .error (.UnsupportedSettingValueType k)) ∧
    (t.canConvert = true → ∀ var, get key = .ok var → t.convert var = none →
      get_as get t key = .ok t.default_constructed) := by
  cases hg : get key with
  | error e =>
    have hne : ∀ k, e ≠ .UnsupportedSettingValueType k := by
      intro k hk
      apply hget k
      rw [hg, hk]
    refine ⟨?_, ?_, ?_, ?_⟩
    · simp [get_as, hg, hne]
    · simp [get_as, hg, hne]
    · intro _ k
      simp [get_as, hg, hne]
    · intro _ var hv
      simp at hv
  | ok var =>
    cases hc : t.canConvert with
    | true =>
      simp only [get_as, hg, hc, TargetType.value]
      refine ⟨by simp, by simp, by simp, ?_⟩
      intro _ v hv hnone
      cases hv
      simp [hnone]
    | false => simp [get_as, hg, hc]

/-- An instance of C14: the stored value `not-a-number` read as `int` gives 0. -/
theorem get_as_unsupported_iff_witness :
    sample_get "local.driver" = .ok "not-a-number" ∧
    get_as sample_get int_target "local.driver" = .ok 0 :=
  ⟨by decide,
   (get_as_unsupported_iff sample_get int_target "local.driver"
      (by intro k; simp [sample_get])).2.2.2 rfl "not-a-number" (by decide) (by decide)⟩

end multipass
